import Mathlib

namespace Codalyzer

/-- A stored counter entry in the shared key-value store: the integer value
and the key's expiry (`none` means the key is persistent / never expires,
`some t` means it expires at absolute instant `t`). -/
structure Entry where
  value : Int
  expiry : Option Nat
deriving DecidableEq

/-- The contents of the two counter keys a single rate-limit transaction
touches: the per-client key (`KEYS[1]`) and the global key (`KEYS[2]`).
`none` means the key is absent from the store. -/
structure Store where
  clientEntry : Option Entry
  globalEntry : Option Entry
deriving DecidableEq

/-- The integer a plain read of the key observes: an absent key reads as zero. -/
def readVal (e : Option Entry) : Int :=
  match e with
  | none => 0
  | some en => en.value

/-- The expiry of a key (`none` when the key is absent or persistent). -/
def expiryOf (e : Option Entry) : Option Nat :=
  match e with
  | none => none
  | some en => en.expiry

/-- One per-key block of `_RATE_LIMIT_LUA`:
`local c = redis.call("INCR", k); if c == 1 then redis.call("EXPIRE", k, ARGV[1]) end`.
Redis `INCR` creates an absent key with value 1 and no expiry, otherwise adds one
keeping the expiry; `EXPIRE k ttl` at instant `now` sets the expiry to `now + ttl`.
Returns the post-increment count and the new entry. -/
def incrHalf (now : Nat) (ttl : Nat) (e : Option Entry) : Int × Option Entry :=
  match e with
  | none => (1, some ⟨1, some (now + ttl)⟩)
  | some en =>
      let v := en.value + 1
      if v = 1 then (v, some ⟨v, some (now + ttl)⟩)
      else (v, some ⟨v, en.expiry⟩)

/-- One per-key block of `_RATE_LIMIT_DECR_LUA`:
`if EXISTS k == 1 then c = DECR k; if c < 0 then SET k 0; c = 0 end end`.
Redis `DECR` subtracts one keeping the expiry; a plain `SET` discards any
previous expiry, leaving the key persistent. Returns the reported count
and the new entry. -/
def decrHalf (e : Option Entry) : Int × Option Entry :=
  match e with
  | none => (0, none)
  | some en =>
      let v := en.value - 1
      if v < 0 then (0, some ⟨0, none⟩)
      else (v, some ⟨v, en.expiry⟩)

/-- `_RATE_LIMIT_LUA`: the atomic admit transaction over the two keys,
executed at instant `now` with TTL argument `ttl`.
Returns `{ip_count, global_count}` and the new store. -/
def rateLimitLua (now : Nat) (s : Store) (ttl : Nat) : (Int × Int) × Store :=
  let c := incrHalf now ttl s.clientEntry
  let g := incrHalf now ttl s.globalEntry
  ((c.1, g.1), ⟨c.2, g.2⟩)

/-- `_RATE_LIMIT_DECR_LUA`: the atomic refund transaction over the two keys.
Returns `{ip_count, global_count}` and the new store. -/
def rateLimitDecrLua (s : Store) : (Int × Int) × Store :=
  let c := decrHalf s.clientEntry
  let g := decrHalf s.globalEntry
  ((c.1, g.1), ⟨c.2, g.2⟩)

/-- Iterated refund: `n` successive executions of `_RATE_LIMIT_DECR_LUA`. -/
def refundIter : Nat → Store → Store
  | 0, s => s
  | n + 1, s => refundIter n (rateLimitDecrLua s).2

/-- Zero-padded decimal rendering of `n` to exactly `w` digits, as produced by
`strftime` fields (`%Y` as `w = 4`, `%m` and `%d` as `w = 2`) for in-range values. -/
def padNum (w : Nat) (n : Nat) : String :=
  String.mk ((List.range w).map (fun i => Char.ofNat (48 + n / 10 ^ (w - 1 - i) % 10)))

/-- `_day_str`: `datetime.now(tz).strftime("%Y%m%d")`, as a function of the
local calendar date `(y, m, d)` the configured-timezone clock reads. -/
def _day_str (y m d : Nat) : String :=
  padNum 4 y ++ padNum 2 m ++ padNum 2 d

/-- `_ip_key`: the per-client counter key for bucket id `day` and client id `ip`,
`f"codalyzer:rl:day:{_day_str()}:ip:{ip}"`. -/
def _ip_key (day ip : String) : String :=
  "codalyzer:rl:day:" ++ day ++ ":ip:" ++ ip

/-- `_global_key`: the global counter key for bucket id `day`,
`f"codalyzer:rl:global:day:{_day_str()}"`. -/
def _global_key (day : String) : String :=
  "codalyzer:rl:global:day:" ++ day

/-- Characters of a string up to (excluding) the first comma. -/
def takeUntilComma : List Char → List Char
  | [] => []
  | c :: cs => if c = ',' then [] else c :: takeUntilComma cs

/-- Python `s.split(",")[0]`: the text before the first comma (the whole
string when it holds no comma). -/
def firstCommaField (s : String) : String :=
  String.mk (takeUntilComma s.data)

/-- Python `s.strip()`: drop leading and trailing whitespace. -/
def pyStrip (s : String) : String :=
  String.mk (((s.data.dropWhile Char.isWhitespace).reverse.dropWhile Char.isWhitespace).reverse)

/-- Python `s.endswith(t)`. -/
def endswith (s t : String) : Bool :=
  t.data.isSuffixOf s.data

/-- The request data the admission-control subsystem inspects: HTTP method,
URL path, the two identity headers (`none` when the header is absent) and
the transport-level peer (`request.client`), carrying its host string. -/
structure Request where
  method : String
  path : String
  xForwardedFor : Option String
  xRealIp : Option String
  clientHost : Option String
deriving DecidableEq

/-- Python truthiness of an optional header string: an absent header
(`None`) and an empty string are both falsy. -/
def pyTruthy (o : Option String) : Bool :=
  match o with
  | none => false
  | some s => s != ""

/-- `get_client_ip`: `if forwarded := headers.get("X-Forwarded-For"): return
forwarded.split(",")[0].strip()`, then the same walrus test on `X-Real-IP`
returning it stripped, then `request.client.host if request.client else
"unknown"`. -/
def get_client_ip (r : Request) : String :=
  if pyTruthy r.xForwardedFor then pyStrip (firstCommaField (r.xForwardedFor.getD ""))
  else if pyTruthy r.xRealIp then pyStrip (r.xRealIp.getD "")
  else match r.clientHost with
    | some h => h
    | none => "unknown"

/-- Modelled from the spec for comparison with `get_client_ip` (refinement):
the candidate list "first value of the forwarded-address header, the
real-address header, the transport-level peer address, the sentinel
`unknown`", with the first non-empty candidate winning. -/
def client_ip_of_spec (r : Request) : String :=
  let c1 := match r.xForwardedFor with
    | some fwd => pyStrip (firstCommaField fwd)
    | none => ""
  if c1 ≠ "" then c1 else
  let c2 := match r.xRealIp with
    | some ri => pyStrip ri
    | none => ""
  if c2 ≠ "" then c2 else
  let c3 := match r.clientHost with
    | some h => h
    | none => ""
  if c3 ≠ "" then c3 else "unknown"

/-- The settings fields the admission controller consults. `rate_limiting_enabled`
is the derived property `bool(UPSTASH_REDIS_URL and UPSTASH_REDIS_TOKEN)`. -/
structure Settings where
  upstashRedisUrl : Option String
  upstashRedisToken : Option String
  dailyRateLimit : Int
  globalRateLimit : Int
deriving DecidableEq

/-- `settings.rate_limiting_enabled`: both credential fields set and non-empty
(Python truthiness of the two optional strings). -/
def rateLimitingEnabled (st : Settings) : Bool :=
  pyTruthy st.upstashRedisUrl && pyTruthy st.upstashRedisToken

/-- An HTTP response as the middleware observes and builds it: status code,
a body tag (the `error` field of the JSON bodies the middleware builds, or
the handler's own body), and response headers. -/
structure Response where
  status : Nat
  body : String
  headers : List (String × String)
deriving DecidableEq

/-- The observable outcome of one pass through `rate_limit_middleware`:
the response returned to the caller, the resulting store contents (`none`
when no store handle existed), whether `call_next` (the protected handler)
was invoked, and whether a refund call was issued. -/
structure MwOutcome where
  response : Response
  store : Option Store
  handlerInvoked : Bool
  refundIssued : Bool
deriving DecidableEq

/-- The three `X-RateLimit-*` headers set on every response that reaches the
post-handler decoration point, with `Remaining = max(0, limit - ip_count)`. -/
def rlHeaders (st : Settings) (ipCount : Int) (resetIso : String) : List (String × String) :=
  [("X-RateLimit-Limit", toString st.dailyRateLimit),
   ("X-RateLimit-Remaining", toString (max 0 (st.dailyRateLimit - ipCount))),
   ("X-RateLimit-Reset", resetIso)]

/-- `rate_limit_middleware`. Inputs beyond the request: the current settings,
the store handle `redis` (absent or holding the two keys' contents), two fault
flags saying whether the `redis.eval` round trip raises on the admit script and
on the refund script (a transport error leaves the store unchanged), the
current instant `now` (for `EXPIRE`), the precomputed reset-time values, and
the response `call_next` would produce. Mirrors the source's control flow:
gate on `POST` + path ending in `/analyze`; fail closed (503) when the handle
is absent but limiting is configured, pass through when unconfigured; run the
admit script; reject 429 on the client check then the global check; otherwise
invoke the handler, refund on a `>= 500` outcome (swallowing refund errors),
and decorate the response with the rate-limit headers. -/
def rate_limit_middleware (st : Settings) (redis : Option Store)
    (admitRaises refundRaises : Bool) (now : Nat)
    (resetIso : String) (secondsUntilReset : Int)
    (req : Request) (handlerResp : Response) : MwOutcome :=
  if ¬(req.method = "POST" ∧ endswith req.path "/analyze" = true) then
    ⟨handlerResp, redis, true, false⟩
  else
    match redis with
    | none =>
        if rateLimitingEnabled st then
          ⟨⟨503, "service_unavailable", []⟩, none, false, false⟩
        else
          ⟨handlerResp, none, true, false⟩
    | some s =>
        if admitRaises then ⟨⟨503, "service_unavailable", []⟩, some s, false, false⟩
        else
          let r := rateLimitLua now s 90000
          let ipCount := r.1.1
          let globalCount := r.1.2
          let s1 := r.2
          if ipCount > st.dailyRateLimit then
            ⟨⟨429, "rate_limit_exceeded",
              [("Retry-After", toString secondsUntilReset),
               ("X-RateLimit-Limit", toString st.dailyRateLimit),
               ("X-RateLimit-Remaining", "0"),
               ("X-RateLimit-Reset", resetIso)]⟩, some s1, false, false⟩
          else if globalCount > st.globalRateLimit then
            ⟨⟨429, "global_limit_exceeded",
              [("Retry-After", toString secondsUntilReset),
               ("X-RateLimit-Global-Limit", toString st.globalRateLimit),
               ("X-RateLimit-Global-Remaining", "0"),
               ("X-RateLimit-Reset", resetIso)]⟩, some s1, false, false⟩
          else
            if handlerResp.status ≥ 500 then
              if refundRaises then
                ⟨{ handlerResp with
                    headers := handlerResp.headers ++ rlHeaders st ipCount resetIso },
                 some s1, true, true⟩
              else
                let rr := rateLimitDecrLua s1
                ⟨{ handlerResp with
                    headers := handlerResp.headers ++ rlHeaders st rr.1.1 resetIso },
                 some rr.2, true, true⟩
            else
              ⟨{ handlerResp with
                  headers := handlerResp.headers ++ rlHeaders st ipCount resetIso },
               some s1, true, false⟩

/-- `n` sequential admit attempts through the middleware against an evolving
store, a healthy store transport and a fixed handler response; returns
(admitted, rejected, final store), counting an attempt as admitted exactly
when the protected handler ran. -/
def runAttempts (st : Settings) (now : Nat) (resetIso : String)
    (secondsUntilReset : Int) (req : Request) (handlerResp : Response) :
    Nat → Store → Nat × Nat × Store
  | 0, s => (0, 0, s)
  | n + 1, s =>
      let out := rate_limit_middleware st (some s) false false now resetIso
        secondsUntilReset req handlerResp
      let rest := runAttempts st now resetIso secondsUntilReset req handlerResp n
        (out.store.getD s)
      if out.handlerInvoked then (rest.1 + 1, rest.2.1, rest.2.2)
      else (rest.1, rest.2.1 + 1, rest.2.2)

end Codalyzer

namespace Codalyzer

theorem incrHalf_fst (now ttl : Nat) (e : Option Entry) :
    (incrHalf now ttl e).1 = readVal e + 1 := by
  cases e with
  | none => rfl
  | some en => simp only [incrHalf, readVal]; split <;> rfl

theorem incrHalf_val (now ttl : Nat) (e : Option Entry) :
    readVal (incrHalf now ttl e).2 = readVal e + 1 := by
  cases e with
  | none => rfl
  | some en => simp only [incrHalf]; split <;> simp [readVal]

theorem decrHalf_none : decrHalf none = (0, none) := rfl

theorem decrHalf_pos (en : Entry) (h : 1 ≤ en.value) :
    decrHalf (some en) = (en.value - 1, some ⟨en.value - 1, en.expiry⟩) := by
  simp only [decrHalf]
  rw [if_neg (by omega)]

theorem decrHalf_clamp (en : Entry) (h : en.value ≤ 0) :
    decrHalf (some en) = (0, some ⟨0, none⟩) := by
  simp only [decrHalf]
  rw [if_pos (by omega)]

theorem decrHalf_val_nonneg (e : Option Entry) : 0 ≤ readVal (decrHalf e).2 := by
  cases e with
  | none => exact le_refl 0
  | some en =>
      by_cases hv : en.value ≤ 0
      · rw [decrHalf_clamp en hv]; simp [readVal]
      · rw [decrHalf_pos en (by omega)]; simp only [readVal]; omega

theorem incr_then_decr_val (now ttl : Nat) (e : Option Entry) (h : 0 ≤ readVal e) :
    readVal (decrHalf (incrHalf now ttl e).2).2 = readVal e := by
  cases e with
  | none => rfl
  | some en =>
      simp only [readVal] at h
      by_cases hv : en.value + 1 = 1
      · simp only [incrHalf, if_pos hv]
        rw [decrHalf_pos ⟨en.value + 1, some (now + ttl)⟩ (by show (1 : Int) ≤ en.value + 1; omega)]
        simp only [readVal]; omega
      · simp only [incrHalf, if_neg hv]
        rw [decrHalf_pos ⟨en.value + 1, en.expiry⟩ (by show (1 : Int) ≤ en.value + 1; omega)]
        simp only [readVal]; omega

theorem rateLimitLua_fst (now : Nat) (s : Store) (ttl : Nat) :
    (rateLimitLua now s ttl).1 =
      (readVal s.clientEntry + 1, readVal s.globalEntry + 1) := by
  simp [rateLimitLua, incrHalf_fst]

theorem rateLimitLua_client_val (now : Nat) (s : Store) (ttl : Nat) :
    readVal (rateLimitLua now s ttl).2.clientEntry = readVal s.clientEntry + 1 := by
  simp [rateLimitLua, incrHalf_val]

theorem rateLimitLua_global_val (now : Nat) (s : Store) (ttl : Nat) :
    readVal (rateLimitLua now s ttl).2.globalEntry = readVal s.globalEntry + 1 := by
  simp [rateLimitLua, incrHalf_val]

theorem rateLimitDecrLua_eq (s : Store) :
    (rateLimitDecrLua s).2 = ⟨(decrHalf s.clientEntry).2, (decrHalf s.globalEntry).2⟩ := rfl

theorem refundIter_nonneg (n : Nat) (s : Store) :
    0 ≤ readVal (refundIter (n + 1) s).clientEntry ∧
    0 ≤ readVal (refundIter (n + 1) s).globalEntry := by
  induction n generalizing s with
  | zero => exact ⟨decrHalf_val_nonneg _, decrHalf_val_nonneg _⟩
  | succ m ih => exact ih (rateLimitDecrLua s).2

theorem mw_not_gated (st : Settings) (redis : Option Store) (ar rr : Bool)
    (now : Nat) (riso : String) (secs : Int) (req : Request) (hr : Response)
    (h : ¬(req.method = "POST" ∧ endswith req.path "/analyze" = true)) :
    rate_limit_middleware st redis ar rr now riso secs req hr =
      ⟨hr, redis, true, false⟩ := by
  unfold rate_limit_middleware
  rw [if_pos h]

theorem mw_no_handle_configured (st : Settings) (ar rr : Bool)
    (now : Nat) (riso : String) (secs : Int) (req : Request) (hr : Response)
    (hm : req.method = "POST") (hp : endswith req.path "/analyze" = true)
    (he : rateLimitingEnabled st = true) :
    rate_limit_middleware st none ar rr now riso secs req hr =
      ⟨⟨503, "service_unavailable", []⟩, none, false, false⟩ := by
  unfold rate_limit_middleware
  rw [if_neg (not_not_intro ⟨hm, hp⟩)]
  simp [he]

theorem mw_no_handle_unconfigured (st : Settings) (ar rr : Bool)
    (now : Nat) (riso : String) (secs : Int) (req : Request) (hr : Response)
    (hm : req.method = "POST") (hp : endswith req.path "/analyze" = true)
    (he : rateLimitingEnabled st = false) :
    rate_limit_middleware st none ar rr now riso secs req hr =
      ⟨hr, none, true, false⟩ := by
  unfold rate_limit_middleware
  rw [if_neg (not_not_intro ⟨hm, hp⟩)]
  simp [he]

theorem mw_admit_raises (st : Settings) (s : Store) (rr : Bool)
    (now : Nat) (riso : String) (secs : Int) (req : Request) (hr : Response)
    (hm : req.method = "POST") (hp : endswith req.path "/analyze" = true) :
    rate_limit_middleware st (some s) true rr now riso secs req hr =
      ⟨⟨503, "service_unavailable", []⟩, some s, false, false⟩ := by
  unfold rate_limit_middleware
  rw [if_neg (not_not_intro ⟨hm, hp⟩)]
  simp

theorem mw_reject_client (st : Settings) (s : Store) (rr : Bool)
    (now : Nat) (riso : String) (secs : Int) (req : Request) (hr : Response)
    (hm : req.method = "POST") (hp : endswith req.path "/analyze" = true)
    (hc : readVal s.clientEntry + 1 > st.dailyRateLimit) :
    rate_limit_middleware st (some s) false rr now riso secs req hr =
      ⟨⟨429, "rate_limit_exceeded",
        [("Retry-After", toString secs),
         ("X-RateLimit-Limit", toString st.dailyRateLimit),
         ("X-RateLimit-Remaining", "0"),
         ("X-RateLimit-Reset", riso)]⟩,
       some (rateLimitLua now s 90000).2, false, false⟩ := by
  unfold rate_limit_middleware
  rw [if_neg (not_not_intro ⟨hm, hp⟩)]
  have h1 : (rateLimitLua now s 90000).1.1 > st.dailyRateLimit := by
    rw [rateLimitLua_fst]; exact hc
  simp only [Bool.false_eq_true, if_false]
  rw [if_pos h1]

theorem mw_reject_global (st : Settings) (s : Store) (rr : Bool)
    (now : Nat) (riso : String) (secs : Int) (req : Request) (hr : Response)
    (hm : req.method = "POST") (hp : endswith req.path "/analyze" = true)
    (hc : ¬ readVal s.clientEntry + 1 > st.dailyRateLimit)
    (hg : readVal s.globalEntry + 1 > st.globalRateLimit) :
    rate_limit_middleware st (some s) false rr now riso secs req hr =
      ⟨⟨429, "global_limit_exceeded",
        [("Retry-After", toString secs),
         ("X-RateLimit-Global-Limit", toString st.globalRateLimit),
         ("X-RateLimit-Global-Remaining", "0"),
         ("X-RateLimit-Reset", riso)]⟩,
       some (rateLimitLua now s 90000).2, false, false⟩ := by
  unfold rate_limit_middleware
  rw [if_neg (not_not_intro ⟨hm, hp⟩)]
  have h1 : ¬ (rateLimitLua now s 90000).1.1 > st.dailyRateLimit := by
    rw [rateLimitLua_fst]; exact hc
  have h2 : (rateLimitLua now s 90000).1.2 > st.globalRateLimit := by
    rw [rateLimitLua_fst]; exact hg
  simp only [Bool.false_eq_true, if_false]
  rw [if_neg h1, if_pos h2]

theorem mw_admit_ok (st : Settings) (s : Store) (rr : Bool)
    (now : Nat) (riso : String) (secs : Int) (req : Request) (hr : Response)
    (hm : req.method = "POST") (hp : endswith req.path "/analyze" = true)
    (hc : ¬ readVal s.clientEntry + 1 > st.dailyRateLimit)
    (hg : ¬ readVal s.globalEntry + 1 > st.globalRateLimit)
    (hok : ¬ hr.status ≥ 500) :
    rate_limit_middleware st (some s) false rr now riso secs req hr =
      ⟨{ hr with headers := hr.headers ++ rlHeaders st (readVal s.clientEntry + 1) riso },
       some (rateLimitLua now s 90000).2, true, false⟩ := by
  unfold rate_limit_middleware
  rw [if_neg (not_not_intro ⟨hm, hp⟩)]
  have h1 : ¬ (rateLimitLua now s 90000).1.1 > st.dailyRateLimit := by
    rw [rateLimitLua_fst]; exact hc
  have h2 : ¬ (rateLimitLua now s 90000).1.2 > st.globalRateLimit := by
    rw [rateLimitLua_fst]; exact hg
  simp only [Bool.false_eq_true, if_false]
  rw [if_neg h1, if_neg h2, if_neg hok]
  have h3 : (rateLimitLua now s 90000).1.1 = readVal s.clientEntry + 1 := by
    rw [rateLimitLua_fst]
  rw [h3]

theorem mw_admit_refund (st : Settings) (s : Store)
    (now : Nat) (riso : String) (secs : Int) (req : Request) (hr : Response)
    (hm : req.method = "POST") (hp : endswith req.path "/analyze" = true)
    (hc : ¬ readVal s.clientEntry + 1 > st.dailyRateLimit)
    (hg : ¬ readVal s.globalEntry + 1 > st.globalRateLimit)
    (hfail : hr.status ≥ 500) :
    rate_limit_middleware st (some s) false false now riso secs req hr =
      ⟨{ hr with headers := hr.headers ++
          rlHeaders st (rateLimitDecrLua (rateLimitLua now s 90000).2).1.1 riso },
       some (rateLimitDecrLua (rateLimitLua now s 90000).2).2, true, true⟩ := by
  unfold rate_limit_middleware
  rw [if_neg (not_not_intro ⟨hm, hp⟩)]
  have h1 : ¬ (rateLimitLua now s 90000).1.1 > st.dailyRateLimit := by
    rw [rateLimitLua_fst]; exact hc
  have h2 : ¬ (rateLimitLua now s 90000).1.2 > st.globalRateLimit := by
    rw [rateLimitLua_fst]; exact hg
  simp only [Bool.false_eq_true, if_false]
  rw [if_neg h1, if_neg h2, if_pos hfail]

theorem mw_admit_refund_raises (st : Settings) (s : Store)
    (now : Nat) (riso : String) (secs : Int) (req : Request) (hr : Response)
    (hm : req.method = "POST") (hp : endswith req.path "/analyze" = true)
    (hc : ¬ readVal s.clientEntry + 1 > st.dailyRateLimit)
    (hg : ¬ readVal s.globalEntry + 1 > st.globalRateLimit)
    (hfail : hr.status ≥ 500) :
    rate_limit_middleware st (some s) false true now riso secs req hr =
      ⟨{ hr with headers := hr.headers ++
          rlHeaders st (readVal s.clientEntry + 1) riso },
       some (rateLimitLua now s 90000).2, true, true⟩ := by
  unfold rate_limit_middleware
  rw [if_neg (not_not_intro ⟨hm, hp⟩)]
  have h1 : ¬ (rateLimitLua now s 90000).1.1 > st.dailyRateLimit := by
    rw [rateLimitLua_fst]; exact hc
  have h2 : ¬ (rateLimitLua now s 90000).1.2 > st.globalRateLimit := by
    rw [rateLimitLua_fst]; exact hg
  simp only [Bool.false_eq_true, if_false]
  rw [if_neg h1, if_neg h2, if_pos hfail]
  have h3 : (rateLimitLua now s 90000).1.1 = readVal s.clientEntry + 1 := by
    rw [rateLimitLua_fst]
  rw [h3]
  simp

theorem padNum_data_length (w n : Nat) : (padNum w n).data.length = w := by
  simp [padNum]

theorem day_str_data_length (y m d : Nat) : (_day_str y m d).data.length = 8 := by
  simp only [_day_str, String.data_append, List.length_append, padNum_data_length]

theorem ip_key_ne_global_key (d1 d2 ip : String) : _ip_key d1 ip ≠ _global_key d2 := by
  intro h
  have hd := congrArg String.data h
  simp only [_ip_key, _global_key, String.data_append, List.append_assoc] at hd
  have h14 := congrArg (List.take 14) hd
  rw [List.take_append_of_le_length (by decide),
    List.take_append_of_le_length (by decide)] at h14
  exact absurd h14 (by decide)

theorem global_key_inj (d1 d2 : String) : _global_key d1 = _global_key d2 → d1 = d2 := by
  intro h
  have hd := congrArg String.data h
  simp only [_global_key, String.data_append] at hd
  exact String.ext (List.append_cancel_left hd)

theorem ip_key_inj (y1 m1 dd1 y2 m2 dd2 : Nat) (ip1 ip2 : String) :
    _ip_key (_day_str y1 m1 dd1) ip1 = _ip_key (_day_str y2 m2 dd2) ip2 →
    _day_str y1 m1 dd1 = _day_str y2 m2 dd2 ∧ ip1 = ip2 := by
  intro h
  have hd := congrArg String.data h
  simp only [_ip_key, String.data_append, List.append_assoc] at hd
  have h1 := List.append_cancel_left hd
  have h2 := List.append_inj h1 (by rw [day_str_data_length, day_str_data_length])
  exact ⟨String.ext h2.1, String.ext (List.append_cancel_left h2.2)⟩

theorem runAttempts_count (st : Settings) (now : Nat) (riso : String) (secs : Int)
    (req : Request) (hr : Response)
    (hm : req.method = "POST") (hp : endswith req.path "/analyze" = true)
    (hok : hr.status < 500) (hLG : st.dailyRateLimit ≤ st.globalRateLimit) :
    ∀ (n : Nat) (s : Store) (k : Int), 0 ≤ k →
      readVal s.clientEntry = k → readVal s.globalEntry = k →
      ((runAttempts st now riso secs req hr n s).1 : Int)
          = min st.dailyRateLimit (k + n) - min st.dailyRateLimit k
      ∧ ((runAttempts st now riso secs req hr n s).2.1 : Int)
          = n - (min st.dailyRateLimit (k + n) - min st.dailyRateLimit k)
      ∧ readVal (runAttempts st now riso secs req hr n s).2.2.clientEntry = k + n
      ∧ readVal (runAttempts st now riso secs req hr n s).2.2.globalEntry = k + n := by
  intro n
  induction n with
  | zero =>
      intro s k hk h1 h2
      refine ⟨by simp [runAttempts], by simp [runAttempts], ?_, ?_⟩
      · simp only [runAttempts, h1]; omega
      · simp only [runAttempts, h2]; omega
  | succ m ih =>
      intro s k hk h1 h2
      by_cases hc : k + 1 > st.dailyRateLimit
      · have hmw := mw_reject_client st s false now riso secs req hr hm hp
          (by rw [h1]; exact hc)
        obtain ⟨ia, ir, ic, ig⟩ := ih (rateLimitLua now s 90000).2 (k + 1) (by omega)
          (by rw [rateLimitLua_client_val, h1]) (by rw [rateLimitLua_global_val, h2])
        simp only [runAttempts, hmw, Option.getD_some, Bool.false_eq_true, if_false]
        refine ⟨?_, ?_, ?_, ?_⟩ <;> push_cast <;> omega
      · have hg : ¬ k + 1 > st.globalRateLimit := by omega
        have hmw := mw_admit_ok st s false now riso secs req hr hm hp
          (by rw [h1]; exact hc) (by rw [h2]; exact hg) (by omega)
        obtain ⟨ia, ir, ic, ig⟩ := ih (rateLimitLua now s 90000).2 (k + 1) (by omega)
          (by rw [rateLimitLua_client_val, h1]) (by rw [rateLimitLua_global_val, h2])
        simp only [runAttempts, hmw, Option.getD_some, if_true]
        refine ⟨?_, ?_, ?_, ?_⟩ <;> push_cast <;> omega

/-- C1: for every sequence of `N` admit attempts against an empty bucket with
per-client limit `L` (and global limit at least `L`, no downstream failures so
no refunds occur), exactly `min(N, L)` requests are admitted, `N - min(N, L)`
are rejected, and the final client counter value equals `N`: a quota-exceeded
rejection still increments the counter and no compensating decrement is issued. -/
theorem claim_C1 (st : Settings) (now : Nat) (riso : String) (secs : Int)
    (req : Request) (hr : Response)
    (hm : req.method = "POST") (hp : endswith req.path "/analyze" = true)
    (hok : hr.status < 500) (hL0 : 0 ≤ st.dailyRateLimit)
    (hLG : st.dailyRateLimit ≤ st.globalRateLimit) (N : Nat) :
    ((runAttempts st now riso secs req hr N ⟨none, none⟩).1 : Int)
        = min (N : Int) st.dailyRateLimit
    ∧ ((runAttempts st now riso secs req hr N ⟨none, none⟩).2.1 : Int)
        = (N : Int) - min (N : Int) st.dailyRateLimit
    ∧ readVal (runAttempts st now riso secs req hr N ⟨none, none⟩).2.2.clientEntry
        = (N : Int) := by
  obtain ⟨ia, ir, ic, _⟩ := runAttempts_count st now riso secs req hr hm hp hok hLG
    N ⟨none, none⟩ 0 (le_refl 0) rfl rfl
  refine ⟨?_, ?_, ?_⟩ <;> omega

/-- Witness for C1: five attempts against an empty bucket with client limit 3
and global limit 10 give 3 admissions, 2 rejections and a final counter of 5. -/
theorem claim_C1_witness :
    ((runAttempts ⟨some "u", some "t", 3, 10⟩ 0 "R" 60
        ⟨"POST", "/api/analyze", some "1.2.3.4", none, none⟩ ⟨200, "ok", []⟩
        5 ⟨none, none⟩).1 : Int) = min ((5 : Nat) : Int) 3
    ∧ ((runAttempts ⟨some "u", some "t", 3, 10⟩ 0 "R" 60
        ⟨"POST", "/api/analyze", some "1.2.3.4", none, none⟩ ⟨200, "ok", []⟩
        5 ⟨none, none⟩).2.1 : Int) = ((5 : Nat) : Int) - min ((5 : Nat) : Int) 3
    ∧ readVal (runAttempts ⟨some "u", some "t", 3, 10⟩ 0 "R" 60
        ⟨"POST", "/api/analyze", some "1.2.3.4", none, none⟩ ⟨200, "ok", []⟩
        5 ⟨none, none⟩).2.2.clientEntry = ((5 : Nat) : Int) :=
  claim_C1 ⟨some "u", some "t", 3, 10⟩ 0 "R" 60
    ⟨"POST", "/api/analyze", some "1.2.3.4", none, none⟩ ⟨200, "ok", []⟩
    rfl (by decide) (by decide) (by decide) (by decide) 5

/-- C2: on the gated route, a configured-but-absent store handle and a raising
admit call both yield a 503 service-unavailable rejection without invoking the
handler; an unconfigured system with no handle passes the request through
unlimited. A configured-but-broken store is never treated as no limit. -/
theorem claim_C2 (st : Settings) (s : Store) (ar rr : Bool) (now : Nat)
    (riso : String) (secs : Int) (req : Request) (hr : Response)
    (hm : req.method = "POST") (hp : endswith req.path "/analyze" = true) :
    (rateLimitingEnabled st = true →
      rate_limit_middleware st none ar rr now riso secs req hr =
        ⟨⟨503, "service_unavailable", []⟩, none, false, false⟩)
    ∧ (rate_limit_middleware st (some s) true rr now riso secs req hr =
        ⟨⟨503, "service_unavailable", []⟩, some s, false, false⟩)
    ∧ (rateLimitingEnabled st = false →
      rate_limit_middleware st none ar rr now riso secs req hr =
        ⟨hr, none, true, false⟩) :=
  ⟨fun he => mw_no_handle_configured st ar rr now riso secs req hr hm hp he,
   mw_admit_raises st s rr now riso secs req hr hm hp,
   fun he => mw_no_handle_unconfigured st ar rr now riso secs req hr hm hp he⟩

/-- Witness for C2: concrete enabled and disabled settings on a POST to
`/api/analyze`. -/
theorem claim_C2_witness :
    (rate_limit_middleware ⟨some "u", some "t", 20, 1000⟩ none false false 0 "R" 60
        ⟨"POST", "/api/analyze", none, none, none⟩ ⟨200, "ok", []⟩ =
      ⟨⟨503, "service_unavailable", []⟩, none, false, false⟩)
    ∧ (rate_limit_middleware ⟨some "u", some "t", 20, 1000⟩ (some ⟨none, none⟩)
        true false 0 "R" 60
        ⟨"POST", "/api/analyze", none, none, none⟩ ⟨200, "ok", []⟩ =
      ⟨⟨503, "service_unavailable", []⟩, some ⟨none, none⟩, false, false⟩)
    ∧ (rate_limit_middleware ⟨none, none, 20, 1000⟩ none false false 0 "R" 60
        ⟨"POST", "/api/analyze", none, none, none⟩ ⟨200, "ok", []⟩ =
      ⟨⟨200, "ok", []⟩, none, true, false⟩) :=
  ⟨(claim_C2 ⟨some "u", some "t", 20, 1000⟩ ⟨none, none⟩ false false 0 "R" 60
      ⟨"POST", "/api/analyze", none, none, none⟩ ⟨200, "ok", []⟩ rfl (by decide)).1
      (by decide),
   (claim_C2 ⟨some "u", some "t", 20, 1000⟩ ⟨none, none⟩ false false 0 "R" 60
      ⟨"POST", "/api/analyze", none, none, none⟩ ⟨200, "ok", []⟩ rfl (by decide)).2.1,
   (claim_C2 ⟨none, none, 20, 1000⟩ ⟨none, none⟩ false false 0 "R" 60
      ⟨"POST", "/api/analyze", none, none, none⟩ ⟨200, "ok", []⟩ rfl (by decide)).2.2
      (by decide)⟩

/-- C3: on the gated route with a working admit call, a refund is issued if and
only if the handler ran and its response status is a server-side failure
(>= 500); 4xx caller errors are never refunded; and whenever the handler ran —
including when the refund call itself raises — the response returned to the
caller keeps the handler's status and body unchanged. -/
theorem claim_C3 (st : Settings) (s : Store) (rr : Bool) (now : Nat)
    (riso : String) (secs : Int) (req : Request) (hr : Response)
    (hm : req.method = "POST") (hp : endswith req.path "/analyze" = true) :
    ((rate_limit_middleware st (some s) false rr now riso secs req hr).refundIssued = true ↔
      ((rate_limit_middleware st (some s) false rr now riso secs req hr).handlerInvoked = true
        ∧ 500 ≤ hr.status))
    ∧ ((rate_limit_middleware st (some s) false rr now riso secs req hr).handlerInvoked = true →
      (rate_limit_middleware st (some s) false rr now riso secs req hr).response.status = hr.status
      ∧ (rate_limit_middleware st (some s) false rr now riso secs req hr).response.body = hr.body) := by
  by_cases hc : readVal s.clientEntry + 1 > st.dailyRateLimit
  · rw [mw_reject_client st s rr now riso secs req hr hm hp hc]
    simp
  · by_cases hg : readVal s.globalEntry + 1 > st.globalRateLimit
    · rw [mw_reject_global st s rr now riso secs req hr hm hp hc hg]
      simp
    · by_cases hfail : hr.status ≥ 500
      · cases rr with
        | true =>
            rw [mw_admit_refund_raises st s now riso secs req hr hm hp hc hg hfail]
            simpa using hfail
        | false =>
            rw [mw_admit_refund st s now riso secs req hr hm hp hc hg hfail]
            simpa using hfail
      · rw [mw_admit_ok st s rr now riso secs req hr hm hp hc hg hfail]
        simpa using hfail

/-- Witness for C3: a handler failure (502) with a raising refund call — refund
was issued and the 502 status and body reach the caller unchanged. -/
theorem claim_C3_witness :
    ((rate_limit_middleware ⟨some "u", some "t", 20, 1000⟩ (some ⟨none, none⟩)
        false true 0 "R" 60 ⟨"POST", "/api/analyze", none, none, none⟩
        ⟨502, "bad_gateway", []⟩).refundIssued = true ↔
      ((rate_limit_middleware ⟨some "u", some "t", 20, 1000⟩ (some ⟨none, none⟩)
        false true 0 "R" 60 ⟨"POST", "/api/analyze", none, none, none⟩
        ⟨502, "bad_gateway", []⟩).handlerInvoked = true ∧ 500 ≤ 502))
    ∧ ((rate_limit_middleware ⟨some "u", some "t", 20, 1000⟩ (some ⟨none, none⟩)
        false true 0 "R" 60 ⟨"POST", "/api/analyze", none, none, none⟩
        ⟨502, "bad_gateway", []⟩).handlerInvoked = true →
      (rate_limit_middleware ⟨some "u", some "t", 20, 1000⟩ (some ⟨none, none⟩)
        false true 0 "R" 60 ⟨"POST", "/api/analyze", none, none, none⟩
        ⟨502, "bad_gateway", []⟩).response.status = 502
      ∧ (rate_limit_middleware ⟨some "u", some "t", 20, 1000⟩ (some ⟨none, none⟩)
        false true 0 "R" 60 ⟨"POST", "/api/analyze", none, none, none⟩
        ⟨502, "bad_gateway", []⟩).response.body = "bad_gateway") :=
  claim_C3 ⟨some "u", some "t", 20, 1000⟩ ⟨none, none⟩ true 0 "R" 60
    ⟨"POST", "/api/analyze", none, none, none⟩ ⟨502, "bad_gateway", []⟩
    rfl (by decide)

/-- Counterexample to C4 as stated: refund is claimed never to extend an
existing key's expiry, but on a key whose stored value is 0 the clamping
branch rewrites it with a plain `SET`, which discards the expiry — the key
becomes persistent (`none`, i.e. it now lives strictly longer than the
`some 90000` deadline it had before the refund). -/
theorem claim_C4_counterexample :
    expiryOf (⟨some ⟨0, some 90000⟩, some ⟨3, some 500⟩⟩ : Store).clientEntry = some 90000
    ∧ expiryOf (rateLimitDecrLua
        ⟨some ⟨0, some 90000⟩, some ⟨3, some 500⟩⟩).2.clientEntry = none := by
  exact ⟨rfl, rfl⟩

/-- C4 (amended): refund decrements each existing key clamping at zero, never
creates an absent key, and leaves the expiry unchanged whenever the decremented
value stays nonnegative; but in the clamping case (stored value <= 0) it resets
the value with a plain `SET`, which removes the key's expiry, leaving the key
persistent. Reported and stored counter values after a refund are never
negative, so any number of repeated refunds beyond the number of admits leaves
every counter at a value >= 0. -/
theorem claim_C4 (e : Option Entry) (s : Store) (n : Nat) :
    (e = none → (decrHalf e).2 = none)
    ∧ (∀ en, e = some en → 1 ≤ en.value →
        (decrHalf e).2 = some ⟨en.value - 1, en.expiry⟩)
    ∧ (∀ en, e = some en → en.value ≤ 0 → (decrHalf e).2 = some ⟨0, none⟩)
    ∧ 0 ≤ readVal (decrHalf e).2
    ∧ (rateLimitDecrLua s).2 = ⟨(decrHalf s.clientEntry).2, (decrHalf s.globalEntry).2⟩
    ∧ 0 ≤ readVal (refundIter (n + 1) s).clientEntry
    ∧ 0 ≤ readVal (refundIter (n + 1) s).globalEntry := by
  refine ⟨?_, ?_, ?_, decrHalf_val_nonneg e, rateLimitDecrLua_eq s,
    (refundIter_nonneg n s).1, (refundIter_nonneg n s).2⟩
  · intro h; rw [h]; rfl
  · intro en h hv; rw [h, decrHalf_pos en hv]
  · intro en h hv; rw [h, decrHalf_clamp en hv]

/-- Witness for C4 at concrete keys: an absent key stays absent, a key at 2
drops to 1 keeping its expiry, a key at 0 clamps to 0 losing its expiry, and
three refunds of a store holding (1, 0) leave both counters nonnegative. -/
theorem claim_C4_witness :
    (decrHalf (none : Option Entry)).2 = none
    ∧ (decrHalf (some ⟨2, some 40⟩)).2 = some ⟨2 - 1, some 40⟩
    ∧ (decrHalf (some ⟨0, some 40⟩)).2 = some ⟨0, none⟩
    ∧ 0 ≤ readVal (decrHalf (some ⟨0, some 40⟩)).2
    ∧ (rateLimitDecrLua ⟨some ⟨1, some 40⟩, some ⟨0, some 40⟩⟩).2 =
        ⟨(decrHalf (some ⟨1, some 40⟩)).2, (decrHalf (some ⟨0, some 40⟩)).2⟩
    ∧ 0 ≤ readVal (refundIter (2 + 1) ⟨some ⟨1, some 40⟩, some ⟨0, some 40⟩⟩).clientEntry
    ∧ 0 ≤ readVal (refundIter (2 + 1) ⟨some ⟨1, some 40⟩, some ⟨0, some 40⟩⟩).globalEntry :=
  ⟨(claim_C4 none ⟨some ⟨1, some 40⟩, some ⟨0, some 40⟩⟩ 2).1 rfl,
   (claim_C4 (some ⟨2, some 40⟩) ⟨some ⟨1, some 40⟩, some ⟨0, some 40⟩⟩ 2).2.1
      ⟨2, some 40⟩ rfl (by decide),
   (claim_C4 (some ⟨0, some 40⟩) ⟨some ⟨1, some 40⟩, some ⟨0, some 40⟩⟩ 2).2.2.1
      ⟨0, some 40⟩ rfl (by decide),
   (claim_C4 (some ⟨0, some 40⟩) ⟨some ⟨1, some 40⟩, some ⟨0, some 40⟩⟩ 2).2.2.2.1,
   (claim_C4 (some ⟨0, some 40⟩) ⟨some ⟨1, some 40⟩, some ⟨0, some 40⟩⟩ 2).2.2.2.2.1,
   (claim_C4 (some ⟨0, some 40⟩) ⟨some ⟨1, some 40⟩, some ⟨0, some 40⟩⟩ 2).2.2.2.2.2.1,
   (claim_C4 (some ⟨0, some 40⟩) ⟨some ⟨1, some 40⟩, some ⟨0, some 40⟩⟩ 2).2.2.2.2.2.2⟩

/-- Counterexample to C5 as stated: the expiry is claimed to be set exactly
once, at key creation, with no later admit or refund setting or changing it.
But after an admit at instant 0 (expiry set to 90000) and a refund (count back
to 0, expiry kept), a second admit at instant 10 finds the existing key at 0,
increments it to 1 and — because the script re-runs `EXPIRE` whenever the
post-increment count is 1 — sets the expiry again, moving it to 90010. -/
theorem claim_C5_counterexample :
    expiryOf (rateLimitLua 0 ⟨none, none⟩ 90000).2.clientEntry = some 90000
    ∧ expiryOf (rateLimitLua 10
        (rateLimitDecrLua (rateLimitLua 0 ⟨none, none⟩ 90000).2).2
        90000).2.clientEntry = some 90010
    ∧ (some 90010 : Option Nat) ≠ some 90000 := by
  refine ⟨rfl, rfl, by decide⟩

/-- C5 (amended): a counter key's expiry is set — to the TTL argument counted
from that moment — by every admit increment that takes the count to 1: at
creation, and again whenever a refund has returned the count to zero and a
later admit increments it. An admit that finds a nonzero count leaves the
expiry unchanged, a non-clamping refund leaves it unchanged, and a clamping
refund (stored value <= 0) removes it. -/
theorem claim_C5 (now ttl : Nat) (e : Option Entry) :
    (readVal e = 0 → (incrHalf now ttl e).2 = some ⟨1, some (now + ttl)⟩)
    ∧ (readVal e ≠ 0 → (incrHalf now ttl e).2 = some ⟨readVal e + 1, expiryOf e⟩)
    ∧ (e = none → (decrHalf e).2 = none)
    ∧ (1 ≤ readVal e → expiryOf (decrHalf e).2 = expiryOf e)
    ∧ (∀ en, e = some en → en.value ≤ 0 → expiryOf (decrHalf e).2 = none) := by
  refine ⟨?_, ?_, ?_, ?_, ?_⟩
  · intro h
    cases e with
    | none => rfl
    | some en =>
        simp only [readVal] at h
        simp [incrHalf, h]
  · intro h
    cases e with
    | none => simp [readVal] at h
    | some en =>
        simp only [readVal] at h
        simp only [incrHalf, readVal, expiryOf, if_neg (by omega : ¬ en.value + 1 = 1)]
  · intro h; rw [h]; rfl
  · intro h
    cases e with
    | none => simp [readVal] at h
    | some en =>
        simp only [readVal] at h
        rw [decrHalf_pos en h]
        simp [expiryOf]
  · intro en h hv
    rw [h, decrHalf_clamp en hv]
    rfl

/-- Witness for C5 at concrete entries: creation sets expiry `now + ttl`; an
admit at count 2 keeps the old expiry; a refund at count 2 keeps it; a refund
at count 0 removes it. -/
theorem claim_C5_witness :
    (incrHalf 7 100 (none : Option Entry)).2 = some ⟨1, some (7 + 100)⟩
    ∧ (incrHalf 7 100 (some ⟨2, some 40⟩)).2 =
        some ⟨readVal (some ⟨2, some 40⟩) + 1, expiryOf (some ⟨2, some 40⟩)⟩
    ∧ (decrHalf (none : Option Entry)).2 = none
    ∧ expiryOf (decrHalf (some ⟨2, some 40⟩)).2 = expiryOf (some ⟨2, some 40⟩)
    ∧ expiryOf (decrHalf (some ⟨0, some 40⟩)).2 = none :=
  ⟨(claim_C5 7 100 none).1 rfl,
   (claim_C5 7 100 (some ⟨2, some 40⟩)).2.1 (by decide),
   (claim_C5 7 100 none).2.2.1 rfl,
   (claim_C5 7 100 (some ⟨2, some 40⟩)).2.2.2.1 (by decide),
   (claim_C5 7 100 (some ⟨0, some 40⟩)).2.2.2.2 ⟨0, some 40⟩ rfl (by decide)⟩

/-- C7: for every store state whose counters hold nonnegative values (an absent
key reading as zero), one admit followed by one refund on the same key pair
restores each counter's read value exactly to its pre-admit value. -/
theorem claim_C7 (now ttl : Nat) (s : Store)
    (hc : 0 ≤ readVal s.clientEntry) (hg : 0 ≤ readVal s.globalEntry) :
    readVal (rateLimitDecrLua (rateLimitLua now s ttl).2).2.clientEntry
        = readVal s.clientEntry
    ∧ readVal (rateLimitDecrLua (rateLimitLua now s ttl).2).2.globalEntry
        = readVal s.globalEntry :=
  ⟨incr_then_decr_val now ttl s.clientEntry hc,
   incr_then_decr_val now ttl s.globalEntry hg⟩

/-- Witness for C7: admit then refund on a store holding (2, absent) restores
the reads 2 and 0. -/
theorem claim_C7_witness :
    readVal (rateLimitDecrLua (rateLimitLua 3 ⟨some ⟨2, some 9⟩, none⟩ 90000).2).2.clientEntry
        = readVal (⟨some ⟨2, some 9⟩, none⟩ : Store).clientEntry
    ∧ readVal (rateLimitDecrLua (rateLimitLua 3 ⟨some ⟨2, some 9⟩, none⟩ 90000).2).2.globalEntry
        = readVal (⟨some ⟨2, some 9⟩, none⟩ : Store).globalEntry :=
  claim_C7 3 90000 ⟨some ⟨2, some 9⟩, none⟩ (by decide) (by decide)

/-- C6: both quota checks use strict greater-than against the configured
limit: a request whose post-increment count is at or below the limit passes
that check (so at exactly `L` it is admitted), one whose count exceeds it is
rejected; the checks are evaluated independently, and when both counts exceed
their limits the client-scope rejection is the one reported. -/
theorem claim_C6 (st : Settings) (s : Store) (now : Nat)
    (riso : String) (secs : Int) (req : Request) (hr : Response)
    (hm : req.method = "POST") (hp : endswith req.path "/analyze" = true) :
    ((readVal s.clientEntry + 1 ≤ st.dailyRateLimit
        ∧ readVal s.globalEntry + 1 ≤ st.globalRateLimit) →
      (rate_limit_middleware st (some s) false false now riso secs req hr).handlerInvoked = true)
    ∧ (readVal s.clientEntry + 1 > st.dailyRateLimit →
      (rate_limit_middleware st (some s) false false now riso secs req hr).response.status = 429
      ∧ (rate_limit_middleware st (some s) false false now riso secs req hr).response.body
          = "rate_limit_exceeded"
      ∧ (rate_limit_middleware st (some s) false false now riso secs req hr).handlerInvoked = false)
    ∧ ((readVal s.clientEntry + 1 ≤ st.dailyRateLimit
        ∧ readVal s.globalEntry + 1 > st.globalRateLimit) →
      (rate_limit_middleware st (some s) false false now riso secs req hr).response.status = 429
      ∧ (rate_limit_middleware st (some s) false false now riso secs req hr).response.body
          = "global_limit_exceeded"
      ∧ (rate_limit_middleware st (some s) false false now riso secs req hr).handlerInvoked = false) := by
  refine ⟨?_, ?_, ?_⟩
  · rintro ⟨h1, h2⟩
    by_cases hfail : hr.status ≥ 500
    · rw [mw_admit_refund st s now riso secs req hr hm hp (by omega) (by omega) hfail]
    · rw [mw_admit_ok st s false now riso secs req hr hm hp (by omega) (by omega) hfail]
  · intro h1
    rw [mw_reject_client st s false now riso secs req hr hm hp h1]
    exact ⟨rfl, rfl, rfl⟩
  · rintro ⟨h1, h2⟩
    rw [mw_reject_global st s false now riso secs req hr hm hp (by omega) h2]
    exact ⟨rfl, rfl, rfl⟩

/-- Witness for C6 with limit 3: counters at 2 (post-count exactly 3) are
admitted; client counter at 3 (post-count 4) is rejected client-scope — also
when the global count exceeds its limit simultaneously; client under limit
with global counter at 10 (post-count 11 over 10) is rejected global-scope. -/
theorem claim_C6_witness :
    (rate_limit_middleware ⟨some "u", some "t", 3, 10⟩
        (some ⟨some ⟨2, some 9⟩, some ⟨2, some 9⟩⟩) false false 0 "R" 60
        ⟨"POST", "/api/analyze", none, none, none⟩ ⟨200, "ok", []⟩).handlerInvoked = true
    ∧ ((rate_limit_middleware ⟨some "u", some "t", 3, 10⟩
        (some ⟨some ⟨3, some 9⟩, some ⟨10, some 9⟩⟩) false false 0 "R" 60
        ⟨"POST", "/api/analyze", none, none, none⟩ ⟨200, "ok", []⟩).response.status = 429
      ∧ (rate_limit_middleware ⟨some "u", some "t", 3, 10⟩
        (some ⟨some ⟨3, some 9⟩, some ⟨10, some 9⟩⟩) false false 0 "R" 60
        ⟨"POST", "/api/analyze", none, none, none⟩ ⟨200, "ok", []⟩).response.body
          = "rate_limit_exceeded"
      ∧ (rate_limit_middleware ⟨some "u", some "t", 3, 10⟩
        (some ⟨some ⟨3, some 9⟩, some ⟨10, some 9⟩⟩) false false 0 "R" 60
        ⟨"POST", "/api/analyze", none, none, none⟩ ⟨200, "ok", []⟩).handlerInvoked = false)
    ∧ ((rate_limit_middleware ⟨some "u", some "t", 3, 10⟩
        (some ⟨some ⟨1, some 9⟩, some ⟨10, some 9⟩⟩) false false 0 "R" 60
        ⟨"POST", "/api/analyze", none, none, none⟩ ⟨200, "ok", []⟩).response.status = 429
      ∧ (rate_limit_middleware ⟨some "u", some "t", 3, 10⟩
        (some ⟨some ⟨1, some 9⟩, some ⟨10, some 9⟩⟩) false false 0 "R" 60
        ⟨"POST", "/api/analyze", none, none, none⟩ ⟨200, "ok", []⟩).response.body
          = "global_limit_exceeded"
      ∧ (rate_limit_middleware ⟨some "u", some "t", 3, 10⟩
        (some ⟨some ⟨1, some 9⟩, some ⟨10, some 9⟩⟩) false false 0 "R" 60
        ⟨"POST", "/api/analyze", none, none, none⟩ ⟨200, "ok", []⟩).handlerInvoked = false) :=
  ⟨(claim_C6 ⟨some "u", some "t", 3, 10⟩ ⟨some ⟨2, some 9⟩, some ⟨2, some 9⟩⟩ 0 "R" 60
      ⟨"POST", "/api/analyze", none, none, none⟩ ⟨200, "ok", []⟩ rfl (by decide)).1
      (by refine ⟨?_, ?_⟩ <;> decide),
   (claim_C6 ⟨some "u", some "t", 3, 10⟩ ⟨some ⟨3, some 9⟩, some ⟨10, some 9⟩⟩ 0 "R" 60
      ⟨"POST", "/api/analyze", none, none, none⟩ ⟨200, "ok", []⟩ rfl (by decide)).2.1
      (by decide),
   (claim_C6 ⟨some "u", some "t", 3, 10⟩ ⟨some ⟨1, some 9⟩, some ⟨10, some 9⟩⟩ 0 "R" 60
      ⟨"POST", "/api/analyze", none, none, none⟩ ⟨200, "ok", []⟩ rfl (by decide)).2.2
      (by refine ⟨?_, ?_⟩ <;> decide)⟩

/-- Counterexample to C8 as stated: the claim says the first non-empty
candidate wins, so a forwarded-address header whose first comma-value is empty
should fall through to the real-address header. The code instead tests the
whole header for truthiness and returns the empty first value: on
`X-Forwarded-For = ",1.2.3.4"` with `X-Real-IP = "5.6.7.8"` it yields `""`,
not `"5.6.7.8"`. -/
theorem claim_C8_counterexample :
    get_client_ip ⟨"POST", "/api/analyze", some ",1.2.3.4", some "5.6.7.8", some "9.9.9.9"⟩ = ""
    ∧ client_ip_of_spec ⟨"POST", "/api/analyze", some ",1.2.3.4", some "5.6.7.8", some "9.9.9.9"⟩
        = "5.6.7.8"
    ∧ get_client_ip ⟨"POST", "/api/analyze", some ",1.2.3.4", some "5.6.7.8", some "9.9.9.9"⟩
        ≠ client_ip_of_spec
            ⟨"POST", "/api/analyze", some ",1.2.3.4", some "5.6.7.8", some "9.9.9.9"⟩ := by
  refine ⟨by decide, by decide, by decide⟩

/-- C8 (amended): the priority order is as claimed, but non-emptiness is
tested on the raw header, not on the extracted candidate: if `X-Forwarded-For`
is present and non-empty the identity is its first comma-value stripped (even
when that value is empty); otherwise if `X-Real-IP` is present and non-empty
the identity is it stripped; otherwise the peer address whenever a peer exists
(even if its host string is empty); otherwise `"unknown"`. -/
theorem claim_C8 (r : Request) :
    (∀ f, r.xForwardedFor = some f → f ≠ "" →
      get_client_ip r = pyStrip (firstCommaField f))
    ∧ (pyTruthy r.xForwardedFor = false → ∀ ri, r.xRealIp = some ri → ri ≠ "" →
      get_client_ip r = pyStrip ri)
    ∧ (pyTruthy r.xForwardedFor = false → pyTruthy r.xRealIp = false →
      ∀ h, r.clientHost = some h → get_client_ip r = h)
    ∧ (pyTruthy r.xForwardedFor = false → pyTruthy r.xRealIp = false →
      r.clientHost = none → get_client_ip r = "unknown") := by
  refine ⟨?_, ?_, ?_, ?_⟩
  · intro f hf hne
    have ht : pyTruthy r.xForwardedFor = true := by
      rw [hf]; simpa [pyTruthy] using hne
    rw [get_client_ip, if_pos ht, hf]
    rfl
  · intro h1 ri hri hne
    have ht : pyTruthy r.xRealIp = true := by
      rw [hri]; simpa [pyTruthy] using hne
    rw [get_client_ip, if_neg (by rw [h1]; exact Bool.false_ne_true), if_pos ht, hri]
    rfl
  · intro h1 h2 h hh
    rw [get_client_ip, if_neg (by rw [h1]; exact Bool.false_ne_true),
      if_neg (by rw [h2]; exact Bool.false_ne_true), hh]
  · intro h1 h2 hh
    rw [get_client_ip, if_neg (by rw [h1]; exact Bool.false_ne_true),
      if_neg (by rw [h2]; exact Bool.false_ne_true), hh]

/-- Witness for C8: a forwarded header with whitespace around the first value
strips to `1.2.3.4`; with it absent, a non-empty real-address header wins; with
both falsy the peer host wins; with no peer the sentinel is returned. -/
theorem claim_C8_witness :
    get_client_ip ⟨"POST", "/api/analyze", some " 1.2.3.4 , 7.7.7.7", some "5.6.7.8", none⟩
        = pyStrip (firstCommaField " 1.2.3.4 , 7.7.7.7")
    ∧ get_client_ip ⟨"POST", "/api/analyze", none, some " 5.6.7.8 ", some "9.9.9.9"⟩
        = pyStrip " 5.6.7.8 "
    ∧ get_client_ip ⟨"POST", "/api/analyze", none, some "", some "9.9.9.9"⟩ = "9.9.9.9"
    ∧ get_client_ip ⟨"POST", "/api/analyze", some "", none, none⟩ = "unknown" :=
  ⟨(claim_C8 ⟨"POST", "/api/analyze", some " 1.2.3.4 , 7.7.7.7", some "5.6.7.8", none⟩).1
      " 1.2.3.4 , 7.7.7.7" rfl (by decide),
   (claim_C8 ⟨"POST", "/api/analyze", none, some " 5.6.7.8 ", some "9.9.9.9"⟩).2.1
      rfl " 5.6.7.8 " rfl (by decide),
   (claim_C8 ⟨"POST", "/api/analyze", none, some "", some "9.9.9.9"⟩).2.2.1
      rfl (by decide) "9.9.9.9" rfl,
   (claim_C8 ⟨"POST", "/api/analyze", some "", none, none⟩).2.2.2
      (by decide) rfl rfl⟩

/-- C9: key derivation is deterministic (it is a function of the bucket id and
client id) and collision-free: a per-client key never equals a global key for
any bucket ids and client id; two per-client keys built from resolver-produced
bucket ids agree only on the same bucket id and the same client id; two global
keys agree only on the same bucket id. -/
theorem claim_C9 (d1 d2 ip ip1 ip2 : String) (y1 m1 dd1 y2 m2 dd2 : Nat) :
    _ip_key d1 ip ≠ _global_key d2
    ∧ (_ip_key (_day_str y1 m1 dd1) ip1 = _ip_key (_day_str y2 m2 dd2) ip2 →
        _day_str y1 m1 dd1 = _day_str y2 m2 dd2 ∧ ip1 = ip2)
    ∧ (_global_key d1 = _global_key d2 → d1 = d2) :=
  ⟨ip_key_ne_global_key d1 d2 ip,
   ip_key_inj y1 m1 dd1 y2 m2 dd2 ip1 ip2,
   global_key_inj d1 d2⟩

/-- Witness for C9 on the bucket id of 2025-10-12 and concrete client ids. -/
theorem claim_C9_witness :
    _ip_key "20251012" "1.2.3.4" ≠ _global_key "20251012"
    ∧ (_day_str 2025 10 12 = _day_str 2025 10 12 ∧ "1.2.3.4" = "1.2.3.4")
    ∧ "20251012" = "20251012" :=
  ⟨(claim_C9 "20251012" "20251012" "1.2.3.4" "1.2.3.4" "1.2.3.4" 2025 10 12 2025 10 12).1,
   (claim_C9 "20251012" "20251012" "1.2.3.4" "1.2.3.4" "1.2.3.4" 2025 10 12 2025 10 12).2.1 rfl,
   (claim_C9 "20251012" "20251012" "1.2.3.4" "1.2.3.4" "1.2.3.4" 2025 10 12 2025 10 12).2.2 rfl⟩

/-- C10: admission control applies only to POST requests whose path ends in
`/analyze`. Any other method or path — the status, health, metrics and share
endpoints included — is forwarded with the handler response returned exactly
as produced (no rate-limit headers attached), the store untouched, and no
refund issued, so such requests never consume or refund quota. -/
theorem claim_C10 (st : Settings) (redis : Option Store) (ar rr : Bool)
    (now : Nat) (riso : String) (secs : Int) (req : Request) (hr : Response)
    (h : req.method ≠ "POST" ∨ endswith req.path "/analyze" = false) :
    rate_limit_middleware st redis ar rr now riso secs req hr =
      ⟨hr, redis, true, false⟩ := by
  apply mw_not_gated
  rintro ⟨h1, h2⟩
  rcases h with h | h
  · exact h h1
  · rw [h2] at h; exact absurd h (by decide)

/-- Witness for C10: a GET to the status endpoint with a populated store
passes through unchanged. -/
theorem claim_C10_witness :
    rate_limit_middleware ⟨some "u", some "t", 20, 1000⟩
        (some ⟨some ⟨5, some 9⟩, some ⟨7, some 9⟩⟩) false false 0 "R" 60
        ⟨"GET", "/api/status", some "1.2.3.4", none, none⟩ ⟨200, "ok", []⟩ =
      ⟨⟨200, "ok", []⟩, some ⟨some ⟨5, some 9⟩, some ⟨7, some 9⟩⟩, true, false⟩ :=
  claim_C10 ⟨some "u", some "t", 20, 1000⟩ (some ⟨some ⟨5, some 9⟩, some ⟨7, some 9⟩⟩)
    false false 0 "R" 60 ⟨"GET", "/api/status", some "1.2.3.4", none, none⟩ ⟨200, "ok", []⟩
    (Or.inl (by decide))

end Codalyzer
